import Mathlib

/-!
# Verification of the auth/session subsystem of the health_score_api backend

This file gives a shallow embedding of the credential / token / session code
of the repository (`app/core/security.py`, `app/api/v1/auth.py`,
`app/services/auth_service.py`, `app/db/models/auth.py`) and proves or
refutes the specified properties about it.

Modelling conventions:
* Machine time is `Nat` (seconds).  `datetime.now()` / `func.now()` become an
  explicit `now : Nat` parameter.
* A Python string is either an ordinary string or a JWT produced by
  `jwt.encode` under the fixed server secret.  `jwt.encode` is injective on
  payloads and signed tokens cannot be forged or collide with ordinary
  strings, so the set of strings is modelled as the inductive type `Str`
  below, where the `jwt` constructor carries the payload fields used by this
  codebase (`sub`, `token`, `parent_token`, `token_type`, `rolling_code`,
  `exp`).
* A decoded payload (a Python dict) is the structure `Dct`; the dicts this
  codebase ever encodes only use the six keys above, so `Dct` has exactly
  those optional fields (`exp` is an int claim).
* Nondeterministic inputs (`secrets.token_hex(8)`, `uuid.uuid4()`,
  autoincremented ids) become explicit parameters.
* The database is a list of records; an ORM flush of a mutated object is an
  update keyed by the record's primary key.
-/

/-- A Python string as used by the auth code: an ordinary string, or a JWT
(`jwt.encode(payload, SECRET_KEY, HS256)`) over a payload built from the six
claim keys this codebase uses. -/
inductive Str where
  | plain (s : String)
  | jwt (sub : Option String) (token : Option Str) (parent_token : Option Str)
      (token_type : Option String) (rolling_code : Option String) (exp : Option Nat)

/-- Decidable equality on `Str` (the automatic deriver does not handle the
nested occurrence of `Str` under `Option`). -/
def Str.decEq : (a b : Str) → Decidable (a = b)
  | .plain a, .plain b =>
    match inferInstanceAs (Decidable (a = b)) with
    | isTrue h => isTrue (by rw [h])
    | isFalse h => isFalse (fun he => h (Str.plain.inj he))
  | .plain _, .jwt _ _ _ _ _ _ => isFalse (fun he => Str.noConfusion he)
  | .jwt _ _ _ _ _ _, .plain _ => isFalse (fun he => Str.noConfusion he)
  | .jwt a1 b1 c1 d1 e1 f1, .jwt a2 b2 c2 d2 e2 f2 =>
    let db : Decidable (b1 = b2) :=
      match b1, b2 with
      | none, none => isTrue rfl
      | some x, some y =>
        match Str.decEq x y with
        | isTrue h => isTrue (by rw [h])
        | isFalse h => isFalse (fun he => h (Option.some.inj he))
      | none, some _ => isFalse (fun he => Option.noConfusion he)
      | some _, none => isFalse (fun he => Option.noConfusion he)
    let dc : Decidable (c1 = c2) :=
      match c1, c2 with
      | none, none => isTrue rfl
      | some x, some y =>
        match Str.decEq x y with
        | isTrue h => isTrue (by rw [h])
        | isFalse h => isFalse (fun he => h (Option.some.inj he))
      | none, some _ => isFalse (fun he => Option.noConfusion he)
      | some _, none => isFalse (fun he => Option.noConfusion he)
    match inferInstanceAs (Decidable (a1 = a2)), db, dc,
        inferInstanceAs (Decidable (d1 = d2)), inferInstanceAs (Decidable (e1 = e2)),
        inferInstanceAs (Decidable (f1 = f2)) with
    | isTrue h1, isTrue h2, isTrue h3, isTrue h4, isTrue h5, isTrue h6 =>
      isTrue (by rw [h1, h2, h3, h4, h5, h6])
    | isFalse h, _, _, _, _, _ => isFalse (fun he => h (Str.jwt.inj he).1)
    | _, isFalse h, _, _, _, _ => isFalse (fun he => h (Str.jwt.inj he).2.1)
    | _, _, isFalse h, _, _, _ => isFalse (fun he => h (Str.jwt.inj he).2.2.1)
    | _, _, _, isFalse h, _, _ => isFalse (fun he => h (Str.jwt.inj he).2.2.2.1)
    | _, _, _, _, isFalse h, _ => isFalse (fun he => h (Str.jwt.inj he).2.2.2.2.1)
    | _, _, _, _, _, isFalse h => isFalse (fun he => h (Str.jwt.inj he).2.2.2.2.2)

instance : DecidableEq Str := Str.decEq

/-- A decoded JWT payload / the claims dict handed to `jwt.encode`.  The
`token` and `parent_token` claims hold strings that may themselves be JWTs
(the models nest encodings), so they are `Str`-valued. -/
structure Dct where
  sub : Option String
  token : Option Str
  parent_token : Option Str
  token_type : Option String
  rolling_code : Option String
  exp : Option Nat
deriving DecidableEq

/-- The empty dict. -/
def Dct.empty : Dct := ⟨none, none, none, none, none, none⟩

/-- `jwt.encode(d, SECRET_KEY, ALGORITHM)`. -/
def jwtEncode (d : Dct) : Str :=
  .jwt d.sub d.token d.parent_token d.token_type d.rolling_code d.exp

/-- `jwt.decode(s, SECRET_KEY, [ALGORITHM])` at time `now`: fails (raises
`JWTError`) on a string that is not a token signed with the server secret,
and on an `exp` claim in the past (`python-jose` rejects iff `exp < now`);
otherwise returns the full payload. -/
def jwtDecode (s : Str) (now : Nat) : Option Dct :=
  match s with
  | .plain _ => none
  | .jwt su t pt tt rc e =>
    match e with
    | some ex => if ex < now then none else some ⟨su, t, pt, tt, rc, some ex⟩
    | none => some ⟨su, t, pt, tt, rc, none⟩

/-- `settings.ACCESS_TOKEN_EXPIRE_MINUTES` (`app/core/config.py`). -/
def ACCESS_TOKEN_EXPIRE_MINUTES : Nat := 30

/-- `settings.REFRESH_TOKEN_EXPIRE_DAYS` (`app/core/config.py`). -/
def REFRESH_TOKEN_EXPIRE_DAYS : Nat := 7

/-- `create_access_token(data, expires_delta)` (`app/core/security.py`,
lines 19-29), with the call time `now` and the random `rolling_code` made
explicit.  `expires_delta` is in seconds. -/
def create_access_token (data : Dct) (expires_delta : Option Nat)
    (now : Nat) (rolling_code : String) : Str :=
  let expire := now + expires_delta.getD (ACCESS_TOKEN_EXPIRE_MINUTES * 60)
  jwtEncode { data with
    exp := some expire, token_type := some "access",
    rolling_code := some rolling_code }

/-- `create_refresh_token(data, expires_delta)` (`app/core/security.py`,
lines 31-39). -/
def create_refresh_token (data : Dct) (expires_delta : Option Nat)
    (now : Nat) : Str :=
  let expire := now + expires_delta.getD (REFRESH_TOKEN_EXPIRE_DAYS * 24 * 60 * 60)
  jwtEncode { data with exp := some expire, token_type := some "refresh" }

/-- `verify_refresh_token(token)` (`app/core/security.py`, lines 41-52):
decode, then require the `token_type` claim to be `"refresh"`; on success
the WHOLE payload dict is returned (not the `sub` claim). -/
def verify_refresh_token (token : Str) (now : Nat) : Option Dct :=
  match jwtDecode token now with
  | none => none
  | some payload =>
    if payload.token_type ≠ some "refresh" then none else some payload

example :
    verify_refresh_token
      (create_refresh_token { Dct.empty with sub := some "alice" } none 0) 5 =
    some ⟨some "alice", none, none, some "refresh", none, some 604800⟩ := by
  decide

example :
    verify_refresh_token
      (create_access_token { Dct.empty with sub := some "alice" } none 0 "rc") 5 =
    none := by
  decide

example : verify_refresh_token (.plain "invalid_token") 5 = none := by decide

/-- A runtime value handed to `AuthService.get_user_by_username`: the code
passes a string on the login path and, on the refresh path, the whole
decoded payload dict. -/
inductive Val where
  | str (s : Str)
  | dct (d : Dct)
deriving DecidableEq

/-- A row of the `users` table, restricted to the columns the auth
subsystem reads (`app/db/models/user.py`). -/
structure User where
  id : Nat
  username : String
  hashed_password : String
deriving DecidableEq

/-- An exception raised below the HTTP layer when the statement is
executed: the DB driver refuses to bind a non-string value (the payload
dict) as the SQL parameter — sqlite3 raises `ProgrammingError`
('type dict is not supported'), asyncpg raises `DataError`.  The service
does not catch it. -/
inductive DbError where
  | bindParam
deriving DecidableEq

/-- `AuthService.get_user_by_username` (`app/services/auth_service.py`,
lines 20-23): executes `SELECT * FROM users WHERE username = :v LIMIT 1`.
A string parameter binds and the WHERE clause compares it against each
stored username string; a dict parameter cannot be bound, so `execute`
raises a driver error before any row comparison happens. -/
def AuthService.get_user_by_username (users : List User) (v : Val) :
    Except DbError (Option User) :=
  match v with
  | .str s => .ok (users.find? (fun u => decide (Str.plain u.username = s)))
  | .dct _ => .error .bindParam

/-- `AuthService.authenticate_user` (`app/services/auth_service.py`, lines
14-18).  `verify_password` is the external bcrypt capability, passed in as
`vp : plain → digest → Bool`; a driver error from the lookup propagates
(the service does not catch exceptions). -/
def AuthService.authenticate_user (users : List User)
    (vp : String → String → Bool) (username password : String) :
    Except DbError (Option User) :=
  match AuthService.get_user_by_username users (.str (.plain username)) with
  | .error e => .error e
  | .ok user =>
    .ok (match user with
         | none => none
         | some u => if vp password u.hashed_password then some u else none)

/-- `UserService.get_user_by_username` (`app/services/user_service.py`,
lines 17-19): same query as the AuthService one; only ever called with a
string subject. -/
def UserService.get_user_by_username (users : List User) (username : String) :
    Option User :=
  users.find? (fun u => decide (u.username = username))

/-- The body of an `HTTPException` (status code, `detail`, headers). -/
structure HttpErr where
  status : Nat
  detail : String
  headers : List (String × String)
deriving DecidableEq

/-- The token pair both auth endpoints return on success
(`access_token`, `refresh_token`, `token_type`). -/
structure TokenPair where
  access_token : Str
  refresh_token : Str
  token_type : String
deriving DecidableEq

instance {ε α : Type} [DecidableEq ε] [DecidableEq α] :
    DecidableEq (Except ε α)
  | .ok a, .ok b =>
    match inferInstanceAs (Decidable (a = b)) with
    | isTrue h => isTrue (by rw [h])
    | isFalse h => isFalse (fun he => h (Except.ok.inj he))
  | .error a, .error b =>
    match inferInstanceAs (Decidable (a = b)) with
    | isTrue h => isTrue (by rw [h])
    | isFalse h => isFalse (fun he => h (Except.error.inj he))
  | .ok _, .error _ => isFalse (fun he => Except.noConfusion he)
  | .error _, .ok _ => isFalse (fun he => Except.noConfusion he)

/-- 401 'Incorrect username or password' raised by `login`. -/
def incorrectCredentialsErr : HttpErr :=
  ⟨401, "Incorrect username or password", [("WWW-Authenticate", "Bearer")]⟩

/-- 401 'Invalid refresh token' raised by the refresh endpoint. -/
def invalidRefreshTokenErr : HttpErr :=
  ⟨401, "Invalid refresh token", [("WWW-Authenticate", "Bearer")]⟩

/-- 401 'User not found' raised by the refresh endpoint. -/
def userNotFoundErr : HttpErr :=
  ⟨401, "User not found",
    [("WWW-Authenticate", "Bearer"), ("Content-Type", "application/json")]⟩

/-- 401 'Could not validate credentials' raised by `get_current_user`. -/
def credentialsException : HttpErr :=
  ⟨401, "Could not validate credentials", [("WWW-Authenticate", "Bearer")]⟩

/-- The 500 response FastAPI produces when a handler lets an exception
(here the driver's parameter-binding error) escape: neither endpoint has a
try/except, so the exception reaches the framework's error handler. -/
def internalServerErr : HttpErr := ⟨500, "Internal Server Error", []⟩

/-- `POST /v1/token` handler `login` (`app/api/v1/auth.py`, lines 16-30),
with call time and the rolling code of the access token explicit.  A driver
error escaping `authenticate_user` would surface as the 500 response (it
cannot occur on this path: the form field is a string). -/
def login (users : List User) (vp : String → String → Bool)
    (username password : String) (now : Nat) (rolling_code : String) :
    Except HttpErr TokenPair :=
  match AuthService.authenticate_user users vp username password with
  | .error _ => .error internalServerErr
  | .ok none => .error incorrectCredentialsErr
  | .ok (some user) =>
    .ok ⟨create_access_token { Dct.empty with sub := some user.username } none now rolling_code,
         create_refresh_token { Dct.empty with sub := some user.username } none now,
         "bearer"⟩

/-- `POST /v1/refresh` handler `refresh_token` (`app/api/v1/auth.py`, lines
32-57).  `username = verify_refresh_token(refresh_token)` binds the WHOLE
payload dict (a non-empty dict, hence truthy whenever not `None`), and that
dict — not its `sub` claim — is what is passed to
`auth_service.get_user_by_username`; the driver error that binding a dict
raises is not caught by the handler and surfaces as the 500 response. -/
def refresh_token (users : List User) (tok : Str) (now : Nat)
    (rolling_code : String) : Except HttpErr TokenPair :=
  match verify_refresh_token tok now with
  | none => .error invalidRefreshTokenErr
  | some username =>
    match AuthService.get_user_by_username users (.dct username) with
    | .error _ => .error internalServerErr
    | .ok none => .error userNotFoundErr
    | .ok (some user) =>
      .ok ⟨create_access_token { Dct.empty with sub := some user.username } none now rolling_code,
           create_refresh_token { Dct.empty with sub := some user.username } none now,
           "bearer"⟩

/-- `get_current_user` (`app/core/security.py`, lines 55-75): decode the
bearer token, require a `sub` claim and `token_type == 'access'`, then look
the user up by username. -/
def get_current_user (users : List User) (tok : Str) (now : Nat) :
    Except HttpErr User :=
  match jwtDecode tok now with
  | none => .error credentialsException
  | some payload =>
    match payload.sub, payload.token_type with
    | some username, some tt =>
      if tt ≠ "access" then .error credentialsException
      else
        match UserService.get_user_by_username users username with
        | none => .error credentialsException
        | some user => .ok user
    | some _, none => .error credentialsException
    | none, _ => .error credentialsException

def demoUsers : List User := [⟨1, "alice", "hpw"⟩]

example :
    login demoUsers (fun p h => p == h) "alice" "hpw" 0 "rc" =
    .ok ⟨.jwt (some "alice") none none (some "access") (some "rc") (some 1800),
         .jwt (some "alice") none none (some "refresh") none (some 604800),
         "bearer"⟩ := by decide

example :
    refresh_token demoUsers
      (.jwt (some "alice") none none (some "refresh") none (some 604800)) 5 "rc" =
    .error internalServerErr := by decide

example : refresh_token demoUsers (.plain "junk") 5 "rc" =
    .error invalidRefreshTokenErr := by decide

/-- A row of the `refresh_tokens` table (`app/db/models/auth.py`, class
`RefreshToken`).  `token` and `parent_token` store JWT-encoded values, not
deterministic fingerprints. -/
structure RefreshToken where
  id : Nat
  token : Str
  parent_token : Option Str
  token_family : String
  user_id : Nat
  is_revoked : Bool
  created_at : Nat
  expires_at : Nat
deriving DecidableEq

/-- `RefreshToken.is_active` (property): not revoked and not past
`expires_at`. -/
def RefreshToken.is_active (t : RefreshToken) (now : Nat) : Bool :=
  !t.is_revoked && decide (now < t.expires_at)

/-- `RefreshToken.revoke` applied to one ORM object: sets `is_revoked` and
flushes; the database effect is an UPDATE keyed by the row's primary key
`(id, user_id)`, modelled over the whole table by `revokeByPk`. -/
def RefreshToken.revoke (t : RefreshToken) : RefreshToken :=
  { t with is_revoked := true }

/-- The table-level effect of `RefreshToken.revoke`: update the row(s) with
the given primary key. -/
def RefreshToken.revokeByPk (db : List RefreshToken) (pk_id pk_user : Nat) :
    List RefreshToken :=
  db.map (fun t =>
    if t.id = pk_id ∧ t.user_id = pk_user then t.revoke else t)

/-- The loop-body test of `RefreshToken.get_by_token` (lines 455-458):
decode the stored `token` column and compare its `token` claim with the
claim decoded from the presented string (Python `None == None` is `True`,
matching `Option` equality). -/
def RefreshToken.storedMatch (incoming_claim : Option Str) (now : Nat)
    (t : RefreshToken) : Bool :=
  match verify_refresh_token t.token now with
  | some stored_payload => decide (stored_payload.token = incoming_claim)
  | none => false

/-- `RefreshToken.get_by_token` (`app/db/models/auth.py`, lines 435-460):
verify the presented string, then scan the rows that are non-revoked and
non-expired, decoding each stored token and returning the first whose
`token` claim matches.  Revoked and expired rows are filtered out by the
query, so the return type is a plain `Option` with no Revoked/Expired
discrimination. -/
def RefreshToken.get_by_token (db : List RefreshToken) (token : Str)
    (now : Nat) : Option RefreshToken :=
  match verify_refresh_token token now with
  | none => none
  | some incoming_payload =>
    (db.filter (fun t => t.is_active now)).find?
      (RefreshToken.storedMatch incoming_payload.token now)

/-- `RefreshToken.create` (`app/db/models/auth.py`, lines 398-433), with the
generated uuid, the autoincrement id and the call time explicit.  Returns
the table after the insert (and the possible parent revocation) together
with the new row.  `expires_in` defaults to
`REFRESH_TOKEN_EXPIRE_DAYS * 24 * 60 * 60` at call sites. -/
def RefreshToken.create (db : List RefreshToken) (user_id : Nat)
    (token : Str) (parent_token : Option Str) (now : Nat)
    (fresh_uuid : String) (new_id : Nat) (expires_in : Nat) :
    List RefreshToken × RefreshToken :=
  let expires_at := now + expires_in
  -- token_family = str(uuid.uuid4()), overridden below when an active
  -- parent is found
  let fam_db : String × List RefreshToken :=
    match parent_token with
    | some pt =>
      match RefreshToken.get_by_token db pt now with
      | some parent =>
        if !parent.is_revoked then
          (parent.token_family, RefreshToken.revokeByPk db parent.id parent.user_id)
        else (fresh_uuid, db)
      | none => (fresh_uuid, db)
    | none => (fresh_uuid, db)
  let newTok : RefreshToken :=
    { id := new_id
      token := create_refresh_token { Dct.empty with token := some token } none now
      parent_token := parent_token.map
        (fun pt => create_refresh_token { Dct.empty with parent_token := some pt } none now)
      token_family := fam_db.1
      user_id := user_id
      is_revoked := false
      created_at := now
      expires_at := expires_at }
  (fam_db.2 ++ [newTok], newTok)

/-- `RefreshToken.revoke_family` (`app/db/models/auth.py`, lines 462-482):
mark every non-revoked row of the family revoked; returns the new table and
the count. -/
def RefreshToken.revoke_family (db : List RefreshToken)
    (token_family : String) : List RefreshToken × Nat :=
  let hit : RefreshToken → Bool :=
    fun t => decide (t.token_family = token_family) && !t.is_revoked
  (db.map (fun t => if hit t then { t with is_revoked := true } else t),
   (db.filter hit).length)

/-- `RefreshToken.cleanup_expired` (`app/db/models/auth.py`, lines 484-492):
delete the rows with `expires_at <= now`; returns the remaining table and
the number of deleted rows. -/
def RefreshToken.cleanup_expired (db : List RefreshToken) (now : Nat) :
    List RefreshToken × Nat :=
  ((db.filter (fun t => !decide (t.expires_at ≤ now))),
   (db.filter (fun t => decide (t.expires_at ≤ now))).length)

/-- A row of the `user_sessions` table (`app/db/models/auth.py`, class
`UserSession`).  The free-form JSON columns (`location`, `device_info`) are
opaque here. -/
structure UserSession where
  id : Nat
  user_id : Nat
  session_id : String
  refresh_token : Option Str
  user_agent : Option String
  ip_address : Option String
  location : Option String
  device_info : Option String
  is_revoked : Bool
  last_used_at : Option Nat
  created_at : Nat
  expires_at : Nat
  refresh_expires_at : Option Nat
deriving DecidableEq

/-- `UserSession.revoke` (`app/db/models/auth.py`, lines 139-144): set
`is_revoked = True` and clear `refresh_token` in the same commit. -/
def UserSession.revoke (s : UserSession) : UserSession :=
  { s with is_revoked := true, refresh_token := none }

/-- `UserSession.update_last_used` (lines 146-150). -/
def UserSession.update_last_used (s : UserSession) (now : Nat) : UserSession :=
  { s with last_used_at := some now }

/-- `UserSession.create` (lines 172-207): builds a row with the column
default `is_revoked = False`, the refresh token stored as
`create_refresh_token({"token": refresh_token})`, and expiries computed
from `expires_in` / `refresh_expires_in` (defaulting at call sites to the
configured TTLs). -/
def UserSession.create (user_id : Nat) (session_id : String)
    (refresh_tok : Str) (user_agent ip_address location device_info : Option String)
    (expires_in refresh_expires_in : Nat) (now : Nat) (new_id : Nat) :
    UserSession :=
  { id := new_id
    user_id := user_id
    session_id := session_id
    refresh_token := some (create_refresh_token { Dct.empty with token := some refresh_tok } none now)
    user_agent := user_agent
    ip_address := ip_address
    location := location
    device_info := device_info
    is_revoked := false
    last_used_at := some now
    created_at := now
    expires_at := now + expires_in
    refresh_expires_at := some (now + refresh_expires_in) }

/-- Table-level effect of `UserSession.revoke` on the row with the given
primary key `(id, user_id)`. -/
def UserSession.revokeByPk (db : List UserSession) (pk_id pk_user : Nat) :
    List UserSession :=
  db.map (fun s => if s.id = pk_id ∧ s.user_id = pk_user then s.revoke else s)

/-- Table-level effect of `UserSession.update_last_used` on the row with
the given primary key. -/
def UserSession.touchByPk (db : List UserSession) (pk_id pk_user now : Nat) :
    List UserSession :=
  db.map (fun s =>
    if s.id = pk_id ∧ s.user_id = pk_user then s.update_last_used now else s)

/-- `UserSession.revoke_all_for_user` (lines 252-279): for every non-revoked
session of the user (optionally sparing one `session_id`), set
`is_revoked = True` and clear `refresh_token`; returns the table and the
count. -/
def UserSession.revoke_all_for_user (db : List UserSession) (user_id : Nat)
    (exclude_session_id : Option String) : List UserSession × Nat :=
  let hit : UserSession → Bool := fun s =>
    decide (s.user_id = user_id) && !s.is_revoked &&
    (match exclude_session_id with
     | some ex => decide (s.session_id ≠ ex)
     | none => true)
  (db.map (fun s =>
     if hit s then { s with is_revoked := true, refresh_token := none } else s),
   (db.filter hit).length)

/-- `UserSession.cleanup_expired` (lines 281-291): delete the rows whose
access expiry or refresh expiry has passed. -/
def UserSession.cleanup_expired (db : List UserSession) (now : Nat) :
    List UserSession × Nat :=
  let gone : UserSession → Bool := fun s =>
    decide (s.expires_at ≤ now) ||
    (match s.refresh_expires_at with
     | some re => decide (re ≤ now)
     | none => false)
  (db.filter (fun s => !gone s), (db.filter gone).length)

/-- The mutating operations the source defines on the `user_sessions`
table. -/
inductive SessOp where
  | create (user_id : Nat) (session_id : String) (refresh_tok : Str)
      (user_agent ip_address location device_info : Option String)
      (expires_in refresh_expires_in now new_id : Nat)
  | revoke (pk_id pk_user : Nat)
  | touch (pk_id pk_user now : Nat)
  | revokeAllForUser (user_id : Nat) (exclude_session_id : Option String)
  | cleanupExpired (now : Nat)

/-- One mutating operation applied to the `user_sessions` table. -/
def sessStep (db : List UserSession) : SessOp → List UserSession
  | .create uid sid rt ua ip loc dev ei rei now nid =>
    db ++ [UserSession.create uid sid rt ua ip loc dev ei rei now nid]
  | .revoke pk_id pk_user => UserSession.revokeByPk db pk_id pk_user
  | .touch pk_id pk_user now => UserSession.touchByPk db pk_id pk_user now
  | .revokeAllForUser uid ex => (UserSession.revoke_all_for_user db uid ex).1
  | .cleanupExpired now => (UserSession.cleanup_expired db now).1

/-- The persistent state the auth subsystem can reach: the three tables. -/
structure AuthState where
  users : List User
  refresh_tokens : List RefreshToken
  sessions : List UserSession
deriving DecidableEq

/-- The refresh endpoint as a transformer of the persistent state: the
handler in `app/api/v1/auth.py` performs no ORM write at all (it never
touches `RefreshToken` or `UserSession`), so the state component is
returned unchanged alongside the HTTP outcome. -/
def refresh_token_route (st : AuthState) (tok : Str) (now : Nat)
    (rolling_code : String) : AuthState × Except HttpErr TokenPair :=
  (st, refresh_token st.users tok now rolling_code)

/-- A stored refresh-token row whose `token` column wraps the raw secret
`"secretA"`, encoded at time 0 (`create_refresh_token({"token": ...})`). -/
def demoStoredTokA : Str :=
  .jwt none (some (.plain "secretA")) none (some "refresh") none (some 604800)

example :
    demoStoredTokA =
    create_refresh_token { Dct.empty with token := some (.plain "secretA") } none 0 := by
  decide

/-- A revoked stored row for `"secretA"` in family `"famX"`. -/
def rRevokedA : RefreshToken := ⟨1, demoStoredTokA, none, "famX", 7, true, 0, 604800⟩

/-- An active stored row for `"secretA"` in family `"famX"`. -/
def rActiveA : RefreshToken := ⟨1, demoStoredTokA, none, "famX", 7, false, 0, 604800⟩

/-- An expired (but not revoked) stored row for `"secretA"`. -/
def rExpiredA : RefreshToken := ⟨3, demoStoredTokA, none, "famY", 7, false, 0, 8⟩

/-- A non-revoked sibling row of family `"famX"` (secret `"secretB"`). -/
def rSiblingB : RefreshToken :=
  ⟨2, .jwt none (some (.plain "secretB")) none (some "refresh") none (some 604810),
   none, "famX", 7, false, 10, 604810⟩

/-- A presentation of the raw secret `"secretA"`: a refresh JWT whose
`token` claim equals the one stored in `rRevokedA` / `rActiveA`. -/
def demoPresentedA : Str :=
  .jwt none (some (.plain "secretA")) none (some "refresh") none (some 604805)

/-- Persistent state with a revoked matching row and a live sibling of the
same family. -/
def demoState2 : AuthState := ⟨demoUsers, [rRevokedA, rSiblingB], []⟩

/-- A demo session row bound to a refresh token. -/
def demoSess : UserSession :=
  ⟨1, 7, "sid", some (.plain "rt"), none, none, none, none, false, none, 0, 100, some 200⟩

/-! ## Helper lemmas -/

/-- Calling `get_user_by_username` with a payload dict makes the driver
fail at parameter binding: the lookup raises instead of returning rows. -/
theorem get_user_by_username_dct_raises (users : List User) (d : Dct) :
    AuthService.get_user_by_username users (.dct d) = .error .bindParam :=
  rfl

/-- `find?` only depends on the pointwise behaviour of the predicate. -/
theorem find_ext {α : Type} (p q : α → Bool) (l : List α)
    (h : ∀ a, p a = q a) : l.find? p = l.find? q := by
  induction l with
  | nil => rfl
  | cons a l ih =>
    simp only [List.find?, h]
    cases q a <;> simp [ih]

/-- A record returned by `RefreshToken.get_by_token` is a member of the
table, is not revoked, is not expired, and its stored token decodes to the
claim of the presented token. -/
theorem get_by_token_eq_some_active {db : List RefreshToken} {tok : Str}
    {now : Nat} {r : RefreshToken}
    (h : RefreshToken.get_by_token db tok now = some r) :
    r ∈ db ∧ r.is_revoked = false ∧ now < r.expires_at ∧
      ∃ p, verify_refresh_token tok now = some p ∧
        RefreshToken.storedMatch p.token now r = true := by
  rw [RefreshToken.get_by_token] at h
  cases hv : verify_refresh_token tok now with
  | none => rw [hv] at h; exact absurd h (by simp)
  | some p =>
    rw [hv] at h
    have hmem := List.mem_of_find?_eq_some h
    have hpred := List.find?_some h
    rw [List.mem_filter] at hmem
    have hact := hmem.2
    rw [RefreshToken.is_active, Bool.and_eq_true, Bool.not_eq_true',
      decide_eq_true_eq] at hact
    exact ⟨hmem.1, hact.1, hact.2, p, rfl, hpred⟩

/-- If every stored record matching the presented claim fails the
active filter, `get_by_token` returns nothing. -/
theorem get_by_token_eq_none {db : List RefreshToken} {tok : Str} {now : Nat}
    (h : ∀ p, verify_refresh_token tok now = some p →
      ∀ r ∈ db, RefreshToken.storedMatch p.token now r = true →
        r.is_revoked = true ∨ r.expires_at ≤ now) :
    RefreshToken.get_by_token db tok now = none := by
  rw [RefreshToken.get_by_token]
  cases hv : verify_refresh_token tok now with
  | none => rfl
  | some p =>
    rw [List.find?_eq_none]
    intro r hr
    rw [List.mem_filter] at hr
    have hact := hr.2
    rw [RefreshToken.is_active, Bool.and_eq_true, Bool.not_eq_true',
      decide_eq_true_eq] at hact
    intro hm
    rcases h p hv r hr.1 hm with hrev | hexp
    · rw [hrev] at hact; exact absurd hact.1 (by simp)
    · omega

/-! ## Claim theorems -/

/-- C3 counterexample: on a verifying token the endpoint does NOT return
the 401 user-not-found error — passing the payload dict to the lookup makes
the driver raise at parameter binding, and the unhandled exception surfaces
as the 500 server error, even with a user whose name equals the token's
subject present in the table. -/
theorem C3_counterexample :
    AuthService.get_user_by_username demoUsers
      (.dct ⟨some "alice", none, none, some "refresh", none, some 604800⟩) =
      .error .bindParam ∧
    refresh_token demoUsers
      (.jwt (some "alice") none none (some "refresh") none (some 604800)) 5 "rc" =
      .error internalServerErr ∧
    internalServerErr ≠ userNotFoundErr := by
  decide

/-- C3 amended: for every string presented to the refresh endpoint the
endpoint never returns a new token pair: when cryptographic verification
fails it returns the invalid-refresh-token error; otherwise the entire
decoded payload (not the `sub` claim) is passed to the username lookup,
whose driver cannot bind a dict as the SQL parameter and raises, so the
endpoint surfaces the 500 server error — not the user-not-found error. -/
theorem C3_amended_refresh_raises (users : List User)
    (tok : Str) (now : Nat) (rc : String) :
    (verify_refresh_token tok now = none →
      refresh_token users tok now rc = .error invalidRefreshTokenErr) ∧
    (∀ p, verify_refresh_token tok now = some p →
      AuthService.get_user_by_username users (.dct p) = .error .bindParam ∧
      refresh_token users tok now rc = .error internalServerErr) ∧
    (refresh_token users tok now rc).toOption = none := by
  refine ⟨fun hv => by simp [refresh_token, hv], fun p hv => ?_, ?_⟩
  · exact ⟨get_user_by_username_dct_raises users p,
      by simp [refresh_token, hv, get_user_by_username_dct_raises users p]⟩
  · cases hv : verify_refresh_token tok now with
    | none => simp [refresh_token, hv, Except.toOption]
    | some p =>
      simp [refresh_token, hv, get_user_by_username_dct_raises users p,
        Except.toOption]

/-- Witness for C3's amended statement at a concrete store and a concrete
well-formed refresh token. -/
theorem C3_witness :
    AuthService.get_user_by_username demoUsers
      (.dct ⟨some "alice", none, none, some "refresh", none, some 604800⟩) =
      .error .bindParam ∧
    refresh_token demoUsers
      (.jwt (some "alice") none none (some "refresh") none (some 604800)) 5 "rc" =
      .error internalServerErr :=
  (C3_amended_refresh_raises demoUsers
    (.jwt (some "alice") none none (some "refresh") none (some 604800)) 5 "rc").2.1
    ⟨some "alice", none, none, some "refresh", none, some 604800⟩ (by decide)

/-- C1 counterexample: a refresh token issued by a successful login fails
already at its FIRST presentation — with the 500 server error from the
driver's parameter-binding failure — and a repeated presentation fails with
the identical error, not with a token-reuse or unknown-token failure.  So
'presenting the same refresh token twice yields success once and a reuse
error the second time' is false of the code. -/
theorem C1_counterexample :
    login demoUsers (fun p h => p == h) "alice" "hpw" 0 "rc" =
      .ok ⟨.jwt (some "alice") none none (some "access") (some "rc") (some 1800),
           .jwt (some "alice") none none (some "refresh") none (some 604800),
           "bearer"⟩ ∧
    refresh_token demoUsers
      (.jwt (some "alice") none none (some "refresh") none (some 604800)) 1 "rc1" =
      .error internalServerErr ∧
    refresh_token demoUsers
      (.jwt (some "alice") none none (some "refresh") none (some 604800)) 2 "rc2" =
      .error internalServerErr ∧
    internalServerErr.status = 500 := by
  decide

/-- C1 amended: no Refresh call ever returns a new token pair — a
cryptographically invalid presentation fails with the invalid-refresh-token
error and a verifying one with the 500 server error raised when the payload
dict reaches the user lookup — hence at most one (in fact zero) Refresh
calls presenting a given raw refresh token succeed, and in no execution do
two Refresh calls with the same token both succeed. -/
theorem C1_amended_refresh_never_succeeds (users : List User) (tok : Str)
    (now : Nat) (rc : String) :
    (refresh_token users tok now rc).toOption = none ∧
    (refresh_token users tok now rc = .error invalidRefreshTokenErr ∨
     refresh_token users tok now rc = .error internalServerErr) := by
  cases hv : verify_refresh_token tok now with
  | none => simp [refresh_token, hv, Except.toOption]
  | some p =>
    simp [refresh_token, hv, get_user_by_username_dct_raises users p,
      Except.toOption]

/-- C8: login with an unknown identifier and login with a known identifier
but failing password verification return the very same error value
(401, 'Incorrect username or password', same headers): the two cases are
indistinguishable from the response. -/
theorem C8_credential_failure_indistinguishable
    (users1 users2 : List User) (vp1 vp2 : String → String → Bool)
    (u1 p1 u2 p2 : String) (now1 now2 : Nat) (rc1 rc2 : String) (usr : User)
    (h1 : AuthService.get_user_by_username users1 (.str (.plain u1)) = .ok none)
    (h2 : AuthService.get_user_by_username users2 (.str (.plain u2)) = .ok (some usr))
    (h3 : vp2 p2 usr.hashed_password = false) :
    login users1 vp1 u1 p1 now1 rc1 = .error incorrectCredentialsErr ∧
    login users2 vp2 u2 p2 now2 rc2 = .error incorrectCredentialsErr ∧
    login users1 vp1 u1 p1 now1 rc1 = login users2 vp2 u2 p2 now2 rc2 := by
  have e1 : login users1 vp1 u1 p1 now1 rc1 = .error incorrectCredentialsErr := by
    simp [login, AuthService.authenticate_user, h1]
  have e2 : login users2 vp2 u2 p2 now2 rc2 = .error incorrectCredentialsErr := by
    simp [login, AuthService.authenticate_user, h2, h3]
  exact ⟨e1, e2, by rw [e1, e2]⟩

/-- Witness for C8: empty user table vs. a table holding alice with a wrong
password. -/
theorem C8_witness :
    login [] (fun p h => p == h) "bob" "x" 0 "r1" =
      .error incorrectCredentialsErr ∧
    login demoUsers (fun p h => p == h) "alice" "wrongpassword" 3 "r2" =
      .error incorrectCredentialsErr ∧
    login [] (fun p h => p == h) "bob" "x" 0 "r1" =
      login demoUsers (fun p h => p == h) "alice" "wrongpassword" 3 "r2" :=
  C8_credential_failure_indistinguishable [] demoUsers
    (fun p h => p == h) (fun p h => p == h) "bob" "x" "alice" "wrongpassword"
    0 3 "r1" "r2" ⟨1, "alice", "hpw"⟩ (by decide) (by decide) (by decide)

/-- Every row of a family is revoked after `revoke_family` runs on that
family. -/
theorem revoke_family_all_revoked (db : List RefreshToken) (fam : String) :
    ∀ t ∈ (RefreshToken.revoke_family db fam).1,
      t.token_family = fam → t.is_revoked = true := by
  intro t ht hfam
  simp only [RefreshToken.revoke_family, List.mem_map] at ht
  obtain ⟨s, _, heq⟩ := ht
  by_cases hcond : (decide (s.token_family = fam) && !s.is_revoked) = true
  · rw [if_pos hcond] at heq
    rw [← heq]
  · rw [if_neg hcond] at heq
    rw [← heq] at hfam ⊢
    rw [Bool.and_eq_true, decide_eq_true_eq, Bool.not_eq_true'] at hcond
    cases hrev : s.is_revoked with
    | true => rfl
    | false => exact absurd ⟨hfam, hrev⟩ hcond

/-- After the keyed update of `RefreshToken.revoke`, every row carrying the
updated primary key is revoked. -/
theorem revokeByPk_pk_revoked (db : List RefreshToken) (i u : Nat) :
    ∀ t ∈ RefreshToken.revokeByPk db i u,
      t.id = i → t.user_id = u → t.is_revoked = true := by
  intro t ht hid huser
  simp only [RefreshToken.revokeByPk, List.mem_map] at ht
  obtain ⟨s, _, heq⟩ := ht
  by_cases hcond : s.id = i ∧ s.user_id = u
  · rw [if_pos hcond] at heq
    rw [← heq]
    rfl
  · rw [if_neg hcond] at heq
    rw [← heq] at hid huser
    exact absurd ⟨hid, huser⟩ hcond


/-- C2 counterexample: presenting a token whose stored record matches but
is already revoked does NOT invoke `revoke_family` and does not mutate the
store at all — the state is returned unchanged (the failing statement is
rolled back), the live sibling of the family stays non-revoked, and the
call fails with the 500 server error from the driver's binding failure,
not with a token-reuse one. -/
theorem C2_counterexample :
    rRevokedA ∈ demoState2.refresh_tokens ∧
    rRevokedA.is_revoked = true ∧
    verify_refresh_token demoPresentedA 10 =
      some ⟨none, some (.plain "secretA"), none, some "refresh", none, some 604805⟩ ∧
    RefreshToken.storedMatch (some (.plain "secretA")) 10 rRevokedA = true ∧
    (refresh_token_route demoState2 demoPresentedA 10 "rc").1 = demoState2 ∧
    (refresh_token_route demoState2 demoPresentedA 10 "rc").2 =
      .error internalServerErr ∧
    rSiblingB.token_family = rRevokedA.token_family ∧
    rSiblingB.is_revoked = false := by
  decide

/-- C2 amended: the refresh endpoint performs no store mutation on any
path (in particular no family revocation on reuse of a revoked token);
`revoke_family` itself, when invoked directly, does mark every row of the
family revoked — but no refresh code path invokes it. -/
theorem C2_amended_refresh_never_mutates (st : AuthState) (tok : Str)
    (now : Nat) (rc : String) (db : List RefreshToken) (fam : String) :
    (refresh_token_route st tok now rc).1 = st ∧
    (∀ t ∈ (RefreshToken.revoke_family db fam).1,
      t.token_family = fam → t.is_revoked = true) := by
  exact ⟨rfl, revoke_family_all_revoked db fam⟩

/-- Witness for C2's amended statement at concrete inputs. -/
theorem C2_witness :
    (refresh_token_route demoState2 demoPresentedA 11 "w").1 = demoState2 ∧
    ({ rSiblingB with is_revoked := true } : RefreshToken).is_revoked = true :=
  ⟨(C2_amended_refresh_never_mutates demoState2 demoPresentedA 11 "w"
      [rSiblingB] "famX").1,
   (C2_amended_refresh_never_mutates demoState2 demoPresentedA 11 "w"
      [rSiblingB] "famX").2
     { rSiblingB with is_revoked := true } (by decide) (by decide)⟩

/-- C4 counterexample: `get_by_token` cannot fail with `Revoked` or
`Expired` — a revoked matching row and an expired matching row both produce
exactly the same result as no matching row at all: `none`. -/
theorem C4_counterexample :
    RefreshToken.storedMatch (some (.plain "secretA")) 10 rRevokedA = true ∧
    rRevokedA.is_revoked = true ∧
    RefreshToken.get_by_token [rRevokedA] demoPresentedA 10 = none ∧
    RefreshToken.get_by_token [] demoPresentedA 10 = none ∧
    RefreshToken.storedMatch (some (.plain "secretA")) 10 rExpiredA = true ∧
    rExpiredA.is_revoked = false ∧
    rExpiredA.expires_at ≤ 10 ∧
    RefreshToken.get_by_token [rExpiredA] demoPresentedA 10 = none := by
  decide

/-- C4 amended: `get_by_token` scans the non-revoked, non-expired rows,
decoding each stored token, and returns the matching record when one
exists; in every other case — cryptographically invalid presentation, no
match, revoked match or expired match — it returns `none`, with no
`Revoked`/`Expired` discrimination. -/
theorem C4_amended_lookup (db : List RefreshToken) (tok : Str) (now : Nat) :
    (∀ r, RefreshToken.get_by_token db tok now = some r →
      r ∈ db ∧ r.is_revoked = false ∧ now < r.expires_at ∧
      ∃ p, verify_refresh_token tok now = some p ∧
        RefreshToken.storedMatch p.token now r = true) ∧
    (verify_refresh_token tok now = none →
      RefreshToken.get_by_token db tok now = none) ∧
    (∀ p, verify_refresh_token tok now = some p →
      (∀ r ∈ db, RefreshToken.storedMatch p.token now r = true →
        r.is_revoked = true ∨ r.expires_at ≤ now) →
      RefreshToken.get_by_token db tok now = none) := by
  refine ⟨fun r h => get_by_token_eq_some_active h, fun hv => ?_, fun p hv hall => ?_⟩
  · rw [RefreshToken.get_by_token, hv]
  · exact get_by_token_eq_none (fun q hq r hr hm => by
      rw [hv] at hq
      cases hq
      exact hall r hr hm)

/-- Witness for C4's amended statement: a successful lookup of an active
row. -/
theorem C4_witness :
    rActiveA ∈ [rActiveA] ∧ rActiveA.is_revoked = false ∧
    (10 : Nat) < rActiveA.expires_at ∧
    ∃ p, verify_refresh_token demoPresentedA 10 = some p ∧
      RefreshToken.storedMatch p.token 10 rActiveA = true :=
  (C4_amended_lookup [rActiveA] demoPresentedA 10).1 rActiveA (by decide)

/-- C5 counterexample: in a successful rotation the new row's
`parent_token` column is a fresh JWT wrapping the presented parent string
under the `parent_token` claim — it does NOT equal the old row's stored
`token` column value (the only lookup key the code has), because the code
stores nondeterministic re-encodings, not deterministic fingerprints. -/
theorem C5_counterexample :
    RefreshToken.get_by_token [rActiveA] demoStoredTokA 10 = some rActiveA ∧
    (RefreshToken.create [rActiveA] 7 (.plain "B") (some demoStoredTokA)
      10 "freshU" 2 604800).2.token_family = "famX" ∧
    (RefreshToken.create [rActiveA] 7 (.plain "B") (some demoStoredTokA)
      10 "freshU" 2 604800).2.parent_token ≠ some rActiveA.token ∧
    (RefreshToken.create [rActiveA] 7 (.plain "B") (some demoStoredTokA)
      10 "freshU" 2 604800).2.parent_token =
      some (.jwt none none (some demoStoredTokA) (some "refresh") none (some 604810)) := by
  decide

/-- C5 amended: when `create` is called with a parent that `get_by_token`
finds (hence active), the old row is marked revoked (keyed update on its
primary key), the new row is created in the parent's `token_family`, and
the new row's `parent_token` column is set to
`create_refresh_token({"parent_token": presented_parent})` — a fresh JWT
referencing the presented parent string, not the old row's stored `token`
value. -/
theorem C5_amended_rotation (db : List RefreshToken) (user_id : Nat)
    (tok pt : Str) (now : Nat) (uuid : String) (new_id expires_in : Nat)
    (parent : RefreshToken)
    (hp : RefreshToken.get_by_token db pt now = some parent) :
    (RefreshToken.create db user_id tok (some pt) now uuid new_id expires_in).1 =
      RefreshToken.revokeByPk db parent.id parent.user_id ++
        [(RefreshToken.create db user_id tok (some pt) now uuid new_id expires_in).2] ∧
    (∀ t ∈ RefreshToken.revokeByPk db parent.id parent.user_id,
      t.id = parent.id → t.user_id = parent.user_id → t.is_revoked = true) ∧
    (RefreshToken.create db user_id tok (some pt) now uuid new_id expires_in).2.token_family =
      parent.token_family ∧
    (RefreshToken.create db user_id tok (some pt) now uuid new_id expires_in).2.parent_token =
      some (create_refresh_token { Dct.empty with parent_token := some pt } none now) := by
  have hnr : parent.is_revoked = false := (get_by_token_eq_some_active hp).2.1
  refine ⟨?_, revokeByPk_pk_revoked db parent.id parent.user_id, ?_, ?_⟩ <;>
    simp [RefreshToken.create, hp, hnr]

/-- Witness for C5's amended statement at a concrete rotation. -/
theorem C5_witness :
    (RefreshToken.create [rActiveA] 7 (.plain "B") (some demoStoredTokA)
      10 "freshU" 2 604800).1 =
      RefreshToken.revokeByPk [rActiveA] rActiveA.id rActiveA.user_id ++
        [(RefreshToken.create [rActiveA] 7 (.plain "B") (some demoStoredTokA)
          10 "freshU" 2 604800).2] ∧
    (∀ t ∈ RefreshToken.revokeByPk [rActiveA] rActiveA.id rActiveA.user_id,
      t.id = rActiveA.id → t.user_id = rActiveA.user_id → t.is_revoked = true) ∧
    (RefreshToken.create [rActiveA] 7 (.plain "B") (some demoStoredTokA)
      10 "freshU" 2 604800).2.token_family = rActiveA.token_family ∧
    (RefreshToken.create [rActiveA] 7 (.plain "B") (some demoStoredTokA)
      10 "freshU" 2 604800).2.parent_token =
      some (create_refresh_token { Dct.empty with parent_token := some demoStoredTokA }
        none 10) :=
  C5_amended_rotation [rActiveA] 7 (.plain "B") demoStoredTokA 10 "freshU" 2
    604800 rActiveA (by decide)

/-- C6 counterexample: decoding `issue(claims, ttl)` strictly before expiry
does not return exactly the original claims — the payload additionally
carries the `exp` and `token_type` entries the encoder added. -/
theorem C6_counterexample :
    verify_refresh_token
      (create_refresh_token { Dct.empty with sub := some "alice" } (some 100) 0) 50 =
      some ⟨some "alice", none, none, some "refresh", none, some 100⟩ ∧
    (⟨some "alice", none, none, some "refresh", none, some 100⟩ : Dct) ≠
      { Dct.empty with sub := some "alice" } := by
  decide

/-- C6 amended: decoding `issue(claims, ttl)` at any time strictly before
`issuedAt + ttl` succeeds and yields the original claims extended with
`exp = issuedAt + ttl` and `token_type = "refresh"`; every other entry
(`sub`, `token`, `parent_token`, `rolling_code`) round-trips unchanged. -/
theorem C6_amended_round_trip (d : Dct) (now ttl check : Nat)
    (_httl : 0 < ttl) (hc : check < now + ttl) :
    verify_refresh_token (create_refresh_token d (some ttl) now) check =
      some { d with exp := some (now + ttl), token_type := some "refresh" } ∧
    ({ d with exp := some (now + ttl), token_type := some "refresh" } : Dct).sub = d.sub ∧
    ({ d with exp := some (now + ttl), token_type := some "refresh" } : Dct).token = d.token ∧
    ({ d with exp := some (now + ttl), token_type := some "refresh" } : Dct).parent_token =
      d.parent_token ∧
    ({ d with exp := some (now + ttl), token_type := some "refresh" } : Dct).rolling_code =
      d.rolling_code := by
  have h1 : ¬ (now + ttl < check) := by omega
  exact ⟨by simp [create_refresh_token, verify_refresh_token, jwtEncode, jwtDecode, h1],
    rfl, rfl, rfl, rfl⟩

/-- Witness for C6's amended statement at concrete claims and times. -/
theorem C6_witness :
    verify_refresh_token
      (create_refresh_token { Dct.empty with sub := some "alice" } (some 100) 0) 50 =
      some { { Dct.empty with sub := some "alice" } with
        exp := some (0 + 100), token_type := some "refresh" } ∧
    ({ { Dct.empty with sub := some "alice" } with
        exp := some (0 + 100), token_type := some "refresh" } : Dct).sub =
      ({ Dct.empty with sub := some "alice" } : Dct).sub ∧
    ({ { Dct.empty with sub := some "alice" } with
        exp := some (0 + 100), token_type := some "refresh" } : Dct).token =
      ({ Dct.empty with sub := some "alice" } : Dct).token ∧
    ({ { Dct.empty with sub := some "alice" } with
        exp := some (0 + 100), token_type := some "refresh" } : Dct).parent_token =
      ({ Dct.empty with sub := some "alice" } : Dct).parent_token ∧
    ({ { Dct.empty with sub := some "alice" } with
        exp := some (0 + 100), token_type := some "refresh" } : Dct).rolling_code =
      ({ Dct.empty with sub := some "alice" } : Dct).rolling_code :=
  C6_amended_round_trip { Dct.empty with sub := some "alice" } 0 100 50
    (by decide) (by decide)

/-- The AuthService username lookup called with a plain string equals the
UserService one: both run `WHERE username = :param` with a string
parameter. -/
theorem auth_lookup_eq_user_lookup (users : List User) (username : String) :
    AuthService.get_user_by_username users (.str (.plain username)) =
      .ok (UserService.get_user_by_username users username) := by
  have h := find_ext
    (fun u : User => decide (Str.plain u.username = Str.plain username))
    (fun u : User => decide (u.username = username)) users
    (fun a => decide_eq_decide.mpr ⟨fun h => Str.plain.inj h, fun h => by rw [h]⟩)
  simp only [AuthService.get_user_by_username, UserService.get_user_by_username]
  exact congrArg Except.ok h

/-- A user returned by `authenticate_user` carries exactly the username
that was presented, and the username lookup finds that user. -/
theorem authenticate_user_username {users : List User}
    {vp : String → String → Bool} {username password : String} {u : User}
    (ha : AuthService.authenticate_user users vp username password =
      .ok (some u)) :
    UserService.get_user_by_username users username = some u ∧
    u.username = username := by
  rw [AuthService.authenticate_user] at ha
  have ha1 :
      (match users.find?
          (fun x => decide (Str.plain x.username = Str.plain username)) with
        | none => none
        | some u0 =>
          if vp password u0.hashed_password = true then some u0 else none) =
      some u := Except.ok.inj ha
  cases hg : users.find?
      (fun x => decide (Str.plain x.username = Str.plain username)) with
  | none => rw [hg] at ha1; exact absurd ha1 (by simp)
  | some u0 =>
    rw [hg] at ha1
    have ha2 : (if vp password u0.hashed_password = true then some u0 else none) =
        some u := ha1
    have hu : u0 = u := by
      cases hvp : vp password u0.hashed_password with
      | true => rw [if_pos hvp] at ha2; exact Option.some.inj ha2
      | false => rw [if_neg (by simp [hvp])] at ha2; cases ha2
    subst hu
    have hmem := List.find?_some hg
    rw [decide_eq_true_eq] at hmem
    have hname : u0.username = username := Str.plain.inj hmem
    have hus : AuthService.get_user_by_username users (.str (.plain username)) =
        .ok (some u0) := by
      simp only [AuthService.get_user_by_username, hg]
    rw [auth_lookup_eq_user_lookup] at hus
    exact ⟨Except.ok.inj hus, hname⟩

/-- C7: whenever login succeeds, the returned access token is an
access-kind JWT whose subject is exactly the username that was used to log
in; decoded before its expiry by `get_current_user`, it verifies and
resolves to the very user that authenticated. -/
theorem C7_login_access_token_identity (users : List User)
    (vp : String → String → Bool) (username password : String)
    (now : Nat) (rc : String) (check : Nat) (pair : TokenPair)
    (hl : login users vp username password now rc = .ok pair)
    (hc : ¬ (now + ACCESS_TOKEN_EXPIRE_MINUTES * 60 < check)) :
    ∃ u, AuthService.authenticate_user users vp username password =
        .ok (some u) ∧
      u.username = username ∧
      pair.access_token =
        .jwt (some username) none none (some "access") (some rc)
          (some (now + ACCESS_TOKEN_EXPIRE_MINUTES * 60)) ∧
      jwtDecode pair.access_token check =
        some ⟨some username, none, none, some "access", some rc,
          some (now + ACCESS_TOKEN_EXPIRE_MINUTES * 60)⟩ ∧
      get_current_user users pair.access_token check = .ok u := by
  cases ha : AuthService.authenticate_user users vp username password with
  | error e => rw [login, ha] at hl; exact absurd hl (by simp)
  | ok o =>
    cases o with
    | none => rw [login, ha] at hl; exact absurd hl (by simp)
    | some u =>
      obtain ⟨hus, hname⟩ := authenticate_user_username ha
      rw [login, ha] at hl
      have hpair : pair =
          ⟨create_access_token { Dct.empty with sub := some u.username } none now rc,
           create_refresh_token { Dct.empty with sub := some u.username } none now,
           "bearer"⟩ := (Except.ok.inj hl).symm
      have hacc : pair.access_token =
          .jwt (some username) none none (some "access") (some rc)
            (some (now + ACCESS_TOKEN_EXPIRE_MINUTES * 60)) := by
        rw [hpair, hname]
        rfl
      refine ⟨u, rfl, hname, hacc, ?_, ?_⟩
      · rw [hacc]
        simp [jwtDecode, hc]
      · rw [hacc]
        simp [get_current_user, jwtDecode, hc, hus]

/-- Witness for C7 at a concrete login. -/
theorem C7_witness :
    ∃ u, AuthService.authenticate_user demoUsers (fun p h => p == h)
        "alice" "hpw" = .ok (some u) ∧
      u.username = "alice" ∧
      (⟨.jwt (some "alice") none none (some "access") (some "rc") (some 1800),
        .jwt (some "alice") none none (some "refresh") none (some 604800),
        "bearer"⟩ : TokenPair).access_token =
        .jwt (some "alice") none none (some "access") (some "rc")
          (some (0 + ACCESS_TOKEN_EXPIRE_MINUTES * 60)) ∧
      jwtDecode (⟨.jwt (some "alice") none none (some "access") (some "rc") (some 1800),
        .jwt (some "alice") none none (some "refresh") none (some 604800),
        "bearer"⟩ : TokenPair).access_token 100 =
        some ⟨some "alice", none, none, some "access", some "rc",
          some (0 + ACCESS_TOKEN_EXPIRE_MINUTES * 60)⟩ ∧
      get_current_user demoUsers
        (⟨.jwt (some "alice") none none (some "access") (some "rc") (some 1800),
          .jwt (some "alice") none none (some "refresh") none (some 604800),
          "bearer"⟩ : TokenPair).access_token 100 = .ok u :=
  C7_login_access_token_identity demoUsers (fun p h => p == h) "alice" "hpw"
    0 "rc" 100
    ⟨.jwt (some "alice") none none (some "access") (some "rc") (some 1800),
     .jwt (some "alice") none none (some "refresh") none (some 604800),
     "bearer"⟩ (by decide) (by decide)


/-- C9: the session-revocation invariant — a revoked session has its
refresh-token pointer cleared — holds of every row after any of the
mutating operations the source defines on the `user_sessions` table,
provided it held before; in particular `revoke` and `revoke_all_for_user`
clear the pointer in the same update that sets `is_revoked`. -/
theorem C9_session_revocation_invariant (db : List UserSession) (op : SessOp)
    (hinv : ∀ s ∈ db, s.is_revoked = true → s.refresh_token = none) :
    ∀ s ∈ sessStep db op, s.is_revoked = true → s.refresh_token = none := by
  intro s hs hrev
  cases op with
  | create uid sid rt ua ip loc dev ei rei now nid =>
    rw [sessStep, List.mem_append] at hs
    cases hs with
    | inl h => exact hinv s h hrev
    | inr h =>
      rw [List.mem_singleton] at h
      rw [h] at hrev
      cases hrev
  | revoke pk_id pk_user =>
    rw [sessStep, UserSession.revokeByPk] at hs
    rcases List.mem_map.mp hs with ⟨t, ht, heq⟩
    by_cases hcond : t.id = pk_id ∧ t.user_id = pk_user
    · rw [if_pos hcond] at heq
      rw [← heq]
      rfl
    · rw [if_neg hcond] at heq
      rw [← heq] at hrev ⊢
      exact hinv t ht hrev
  | touch pk_id pk_user now =>
    rw [sessStep, UserSession.touchByPk] at hs
    rcases List.mem_map.mp hs with ⟨t, ht, heq⟩
    by_cases hcond : t.id = pk_id ∧ t.user_id = pk_user
    · rw [if_pos hcond] at heq
      rw [← heq] at hrev ⊢
      exact hinv t ht hrev
    · rw [if_neg hcond] at heq
      rw [← heq] at hrev ⊢
      exact hinv t ht hrev
  | revokeAllForUser uid ex =>
    rw [sessStep] at hs
    simp only [UserSession.revoke_all_for_user, List.mem_map] at hs
    rcases hs with ⟨t, ht, heq⟩
    rcases ite_eq_iff.mp heq with ⟨_, hval⟩ | ⟨_, hval⟩
    · rw [← hval]
    · rw [← hval] at hrev ⊢
      exact hinv t ht hrev
  | cleanupExpired now =>
    rw [sessStep] at hs
    simp only [UserSession.cleanup_expired, List.mem_filter] at hs
    exact hinv s hs.1 hrev

/-- Witness for C9: revoking a concrete session leaves a table whose only
revoked row has no refresh-token pointer. -/
theorem C9_witness : (UserSession.revoke demoSess).refresh_token = none :=
  C9_session_revocation_invariant [demoSess] (.revoke 1 7) (by decide)
    (UserSession.revoke demoSess) (by decide) (by decide)

/-- C10: creating a refresh token whose `parent_token` is absent from the
store or matches only revoked rows still succeeds, places the new row in
the freshly generated uuid family, revokes nothing, and leaves the table
otherwise unchanged. -/
theorem C10_create_with_absent_or_revoked_parent (db : List RefreshToken)
    (user_id : Nat) (tok pt : Str) (now : Nat) (uuid : String)
    (new_id expires_in : Nat)
    (h : verify_refresh_token pt now = none ∨
      ∃ p, verify_refresh_token pt now = some p ∧
        ∀ r ∈ db, RefreshToken.storedMatch p.token now r = true →
          r.is_revoked = true) :
    (RefreshToken.create db user_id tok (some pt) now uuid new_id expires_in).1 =
      db ++ [(RefreshToken.create db user_id tok (some pt) now uuid new_id expires_in).2] ∧
    (RefreshToken.create db user_id tok (some pt) now uuid new_id expires_in).2.token_family =
      uuid ∧
    (RefreshToken.create db user_id tok (some pt) now uuid new_id expires_in).2.is_revoked =
      false := by
  have hnone : RefreshToken.get_by_token db pt now = none := by
    rcases h with hv | ⟨p, hv, hall⟩
    · rw [RefreshToken.get_by_token, hv]
    · exact get_by_token_eq_none (fun q hq r hr hm => by
        rw [hv] at hq
        cases hq
        exact Or.inl (hall r hr hm))
  refine ⟨?_, ?_, ?_⟩ <;> simp [RefreshToken.create, hnone]

/-- Witness for C10: rotating on a revoked parent silently detaches into a
fresh family. -/
theorem C10_witness :
    (RefreshToken.create [rRevokedA] 7 (.plain "B") (some demoPresentedA)
      10 "newfam" 2 604800).1 =
      [rRevokedA] ++
        [(RefreshToken.create [rRevokedA] 7 (.plain "B") (some demoPresentedA)
          10 "newfam" 2 604800).2] ∧
    (RefreshToken.create [rRevokedA] 7 (.plain "B") (some demoPresentedA)
      10 "newfam" 2 604800).2.token_family = "newfam" ∧
    (RefreshToken.create [rRevokedA] 7 (.plain "B") (some demoPresentedA)
      10 "newfam" 2 604800).2.is_revoked = false :=
  C10_create_with_absent_or_revoked_parent [rRevokedA] 7 (.plain "B")
    demoPresentedA 10 "newfam" 2 604800
    (Or.inr ⟨⟨none, some (.plain "secretA"), none, some "refresh", none, some 604805⟩,
      by decide, by decide⟩)
